import Mathlib

/-
Shallow embedding of the Telegram bot in src/app.py.

Modelling conventions:
- Python strings are Lean `String`; the `str` methods used by the bot
  (`lower`, `" ".join`, `split(" ")`, `startswith`) are re-implemented
  below as structural recursions over the underlying character list, with
  Python semantics (ASCII case mapping; `split(" ")` keeps empty pieces).
- Python floats are modelled as exact rationals; `float(token)` is the
  parser `pyFloat?` below (sign, digits, optional fraction, optional
  exponent).  The `inf` / `nan` words and digit-group underscores accepted
  by CPython are outside the model; no claim depends on them.
- Every external collaborator (Telegram membership lookup, the four HTTP
  content APIs, `random.shuffle`) is an oracle input, bundled in `Env`.
- The mutable process state (`context.user_data["correct_answer"]`, the
  global `finance_data` dict, the `schedule` job list) is `BotState`;
  handlers map an old state to a new one.
- An uncaught Python exception is `Except.error` carrying the exception
  text; a handler that returns normally yields `Except.ok` with the new
  state and the list of messages it sent.
-/

/-- Python `str.lower()` (ASCII case mapping, as used on the bot's inputs). -/
def pyLower (s : String) : String := String.mk (s.data.map Char.toLower)

/-- Characters of `sep.join(pieces)` for a one-character separator list. -/
def joinChars (sep : List Char) : List (List Char) → List Char
  | [] => []
  | [x] => x
  | x :: y :: t => x ++ sep ++ joinChars sep (y :: t)

/-- Python `sep.join(l)`. -/
def pyJoin (sep : String) (l : List String) : String :=
  String.mk (joinChars sep.data (l.map String.data))

/-- Python `" ".join(l)`, the way every handler flattens `context.args`. -/
def pyJoinSpace (l : List String) : String := pyJoin " " l

/-- Characters of Python `s.split(" ")`: split on each single space, keeping
empty pieces.  The result is always nonempty. -/
def splitSpaceChars : List Char → List (List Char)
  | [] => [[]]
  | c :: cs =>
    if c = ' ' then [] :: splitSpaceChars cs
    else
      match splitSpaceChars cs with
      | [] => [[c]]
      | h :: t => (c :: h) :: t

/-- Python `s.split(" ")`. -/
def pySplitSpace (s : String) : List String :=
  (splitSpaceChars s.data).map String.mk

/-- Python `s.startswith(p)`. -/
def pyStartsWith (s p : String) : Bool := List.isPrefixOf p.data s.data

/-- Numeric value of a list of ASCII digit characters. -/
def digitsToNat (l : List Char) : Nat :=
  l.foldl (fun a c => 10 * a + (c.toNat - 48)) 0

/-- Optional sign at the front of a numeric token. -/
def splitSign : List Char → Int × List Char
  | '+' :: t => (1, t)
  | '-' :: t => (-1, t)
  | cs => (1, cs)

/-- Parsed pieces of a Python float literal: sign, integer digits, fraction
digits with their count, and the signed decimal exponent. -/
structure FloatParts where
  sign : Int
  intDigits : Nat
  fracDigits : Nat
  fracLen : Nat
  exp : Int
  deriving DecidableEq

/-- Recognizer for the grammar CPython's `float(str)` accepts on the bot's
amount tokens: `[sign] digits [. digits] [(e|E) [sign] digits]` with at
least one mantissa digit and nothing left over. -/
def pyFloatParts (cs : List Char) : Option FloatParts :=
  let p := splitSign cs
  let ip := p.2.takeWhile Char.isDigit
  let r1 := p.2.dropWhile Char.isDigit
  let q :=
    match r1 with
    | '.' :: t => (t.takeWhile Char.isDigit, t.dropWhile Char.isDigit)
    | _ => ([], r1)
  if ip = [] ∧ q.1 = [] then none
  else
    match q.2 with
    | [] => some ⟨p.1, digitsToNat ip, digitsToNat q.1, q.1.length, 0⟩
    | e :: t =>
      if e = 'e' ∨ e = 'E' then
        let es := splitSign t
        let ed := es.2.takeWhile Char.isDigit
        let t2 := es.2.dropWhile Char.isDigit
        if ed = [] ∨ t2 ≠ [] then none
        else some ⟨p.1, digitsToNat ip, digitsToNat q.1, q.1.length,
                   es.1 * (digitsToNat ed : Int)⟩
      else none

/-- Exact rational value denoted by parsed float pieces. -/
def FloatParts.val (p : FloatParts) : ℚ :=
  let m : ℚ := (p.sign : ℚ) * ((p.intDigits : ℚ) + (p.fracDigits : ℚ) / 10 ^ p.fracLen)
  if 0 ≤ p.exp then m * 10 ^ p.exp.toNat else m / 10 ^ (-p.exp).toNat

/-- Python `float(s)` as an exact rational; `none` when `float` raises
`ValueError`. -/
def pyFloat? (s : String) : Option ℚ := (pyFloatParts s.data).map FloatParts.val

/-- One outgoing message: `update.message.reply_text` to the sender, or
`send_confession_to_group` to the fixed group. -/
inductive Reply where
  | user (text : String)
  | group (text : String)
  deriving DecidableEq

/-- Outcome of `update.bot.get_chat_member(CHANNEL_LINK, user_id)` together
with the attribute reads around it: either a member-status string, or an
exception (network failure, malformed update, ...). -/
inductive ChatMemberResult where
  | ok (status : String)
  | err (e : String)
  deriving DecidableEq

/-- One question object from the Open Trivia DB payload. -/
structure TriviaQuestion where
  question : String
  correct_answer : String
  incorrect_answers : List String
  deriving DecidableEq

/-- The `response.json()` of the trivia request: a well-formed `"results"`
list, or a failure (the request raised, or the payload lacks the accessed
fields, raising `KeyError`/`TypeError`). -/
inductive TriviaResp where
  | ok (results : List TriviaQuestion)
  | fail (e : String)

/-- The OpenWeatherMap payload: `found` for `cod == 200` with the accessed
fields present, `notFound` for a payload whose `cod` is not 200, `fail`
when the request raised or the accessed fields are missing. -/
inductive WeatherResp where
  | found (desc : String) (temp : ℚ)
  | notFound
  | fail (e : String)

/-- The Last.fm payload: `apiError` when `"error" in music_data`, otherwise
the `(name, artist.name)` track list, or `fail` when the request raised or
the accessed fields are missing. -/
inductive MusicResp where
  | apiError
  | ok (tracks : List (String × String))
  | fail (e : String)

/-- The dictionary payload behind `get_word_of_the_day`. -/
inductive DictResp where
  | ok (word : String)
  | fail (e : String)

/-- The global `finance_data` dict (line 26). -/
structure FinanceData where
  income : ℚ
  expenses : ℚ
  deriving DecidableEq

/-- One job registered with `schedule.every(n).minutes.do(...)`. -/
structure ScheduledTask where
  intervalMinutes : Nat
  message : String
  deriving DecidableEq

/-- The per-process mutable state a handler can touch: the pending quiz
answer slot `context.user_data["correct_answer"]`, the finance ledger, and
the `schedule` job list. -/
structure BotState where
  slot : Option String
  fin : FinanceData
  sched : List ScheduledTask
  deriving DecidableEq

/-- The external world an inbound event is processed against: the
membership lookup's outcome and each content API's payload, plus the
permutation `random.shuffle` applies to the quiz options. -/
structure Env where
  member : ChatMemberResult
  trivia : TriviaResp
  weatherResp : WeatherResp
  musicResp : MusicResp
  dictResp : DictResp
  shuffle : List String → List String

/-- The environment-provided channel link (line 23); its exact text is
irrelevant to every claim. -/
def CHANNEL_LINK : String := "CHANNEL_LINK"

/-- Reply sent by every gated handler when the gate denies access. -/
def joinPrompt : String := "Please join the channel first: " ++ CHANNEL_LINK

/-- Lines 39-47: `check_channel_member`.  Any exception in the lookup is
caught, logged, and turned into `False`; otherwise the user passes exactly
when the status string is one of the three member statuses. -/
def check_channel_member (m : ChatMemberResult) : Bool :=
  match m with
  | .ok status => status == "member" || status == "administrator" || status == "creator"
  | .err _ => false

/-- An ASCII apostrophe, used by the fitness reply text. -/
def squote : String := String.singleton (Char.ofNat 39)

/-- Lines 51-57: the `/start` handler. -/
def start (env : Env) (st : BotState) (_args : List String) :
    Except String (BotState × List Reply) :=
  if check_channel_member env.member = false then .ok (st, [.user joinPrompt])
  else
    .ok (st, [.user "Welcome to Super Bot! Choose a feature: /quiz, /finance, /study, /weather, /music, /fitness, /language, /confession"])

/-- Lines 59-71: the `/confession` handler. -/
def confession (env : Env) (st : BotState) (args : List String) :
    Except String (BotState × List Reply) :=
  if check_channel_member env.member = false then .ok (st, [.user joinPrompt])
  else
    if pyJoinSpace args ≠ "" then
      .ok (st, [.group (pyJoinSpace args), .user "Your confession has been sent anonymously!"])
    else
      .ok (st, [.user "Please provide a confession after the command."])

/-- Lines 74-96: the `/quiz` handler.  On a well-formed payload it sends the
question with the shuffled options and stores the correct answer in the
session slot; a failed request, malformed payload, or empty `results`
list raises (`KeyError` / `IndexError`), uncaught. -/
def quiz (env : Env) (st : BotState) (_args : List String) :
    Except String (BotState × List Reply) :=
  if check_channel_member env.member = false then .ok (st, [.user joinPrompt])
  else
    match env.trivia with
    | .fail e => .error e
    | .ok [] => .error "IndexError: list index out of range"
    | .ok (question :: _) =>
      .ok ({ st with slot := some question.correct_answer },
        [.user ("Question: " ++ question.question ++ "\nOptions: " ++
          pyJoin ", " (env.shuffle (question.incorrect_answers ++ [question.correct_answer])))])

/-- Lines 98-106: `check_answer`, the free-text message handler.  It does
not call `check_channel_member`.  When no answer is stored,
`context.user_data.get("correct_answer")` is `None` and
`correct_answer.lower()` raises `AttributeError`, uncaught.  The slot is
never written, so it keeps its value on every path. -/
def check_answer (_env : Env) (st : BotState) (msg : String) :
    Except String (BotState × List Reply) :=
  match st.slot with
  | none => .error "AttributeError: NoneType object has no attribute lower"
  | some correct_answer =>
    if pyLower msg = pyLower correct_answer then
      .ok (st, [.user "Correct!"])
    else
      .ok (st, [.user ("Incorrect! The correct answer was: " ++ correct_answer)])

/-- Lines 109-138: the `/finance` handler.  The joined, lowered argument
string selects the sub-command by prefix; the amount is `float` of the
second space-separated token, with `ValueError` and `IndexError` caught
and turned into the validation reply. -/
def finance (env : Env) (st : BotState) (args : List String) :
    Except String (BotState × List Reply) :=
  if check_channel_member env.member = false then .ok (st, [.user joinPrompt])
  else
    if pyStartsWith (pyLower (pyJoinSpace args)) "income" then
      match (pySplitSpace (pyLower (pyJoinSpace args))).get? 1 with
      | none => .ok (st, [.user "Please provide a valid income amount."])
      | some tok =>
        match pyFloat? tok with
        | none => .ok (st, [.user "Please provide a valid income amount."])
        | some amount =>
          .ok ({ st with fin := { st.fin with income := st.fin.income + amount } },
            [.user ("Income of " ++ toString amount ++ " added. Total income: " ++
              toString (st.fin.income + amount))])
    else if pyStartsWith (pyLower (pyJoinSpace args)) "expense" then
      match (pySplitSpace (pyLower (pyJoinSpace args))).get? 1 with
      | none => .ok (st, [.user "Please provide a valid expense amount."])
      | some tok =>
        match pyFloat? tok with
        | none => .ok (st, [.user "Please provide a valid expense amount."])
        | some amount =>
          .ok ({ st with fin := { st.fin with expenses := st.fin.expenses + amount } },
            [.user ("Expense of " ++ toString amount ++ " added. Total expenses: " ++
              toString (st.fin.expenses + amount))])
    else if pyLower (pyJoinSpace args) = "balance" then
      .ok (st, [.user ("Your balance is: " ++ toString (st.fin.income - st.fin.expenses))])
    else
      .ok (st, [.user "Use /finance income <amount>, /finance expense <amount>, or /finance balance."])

/-- The job registered by line 147. -/
def work_over_task : ScheduledTask :=
  ⟨25, "Work session is over. Take a 5-minute break!"⟩

/-- The job registered by line 148. -/
def break_over_task : ScheduledTask :=
  ⟨5, "Break time is over. Time to work!"⟩

/-- Lines 141-154: the `/study` handler up to entering its polling loop.
Each gated invocation appends a fresh 25-minute job and a fresh 5-minute
job to the global `schedule` list (lines 147-148) — nothing is looked up
or cancelled first — and sends the started reply (line 150).  Lines
152-154 then poll `schedule.run_pending()` forever; that loop adds no
further registration and never returns, so the embedding models the
handler's state effect, which is complete once the loop is entered. -/
def study (env : Env) (st : BotState) (_args : List String) :
    Except String (BotState × List Reply) :=
  if check_channel_member env.member = false then .ok (st, [.user joinPrompt])
  else
    .ok ({ st with sched := st.sched ++ [work_over_task, break_over_task] },
      [.user "Pomodoro timer started! Work for 25 minutes, then take a 5-minute break."])

/-- Lines 157-179: the `/weather` handler.  A failed request or a payload
missing the accessed fields raises, uncaught. -/
def weather (env : Env) (st : BotState) (args : List String) :
    Except String (BotState × List Reply) :=
  if check_channel_member env.member = false then .ok (st, [.user joinPrompt])
  else
    if pyJoinSpace args = "" then .ok (st, [.user "Please provide a city name."])
    else
      match env.weatherResp with
      | .fail e => .error e
      | .found desc temp =>
        .ok (st, [.user ("Weather in " ++ pyJoinSpace args ++ ":\n" ++ desc ++
          "\nTemperature: " ++ toString temp ++ "°C")])
      | .notFound => .ok (st, [.user "City not found!"])

/-- Lines 182-203: the `/music` handler.  A failed request, malformed
payload, or empty track list raises, uncaught. -/
def music (env : Env) (st : BotState) (args : List String) :
    Except String (BotState × List Reply) :=
  if check_channel_member env.member = false then .ok (st, [.user joinPrompt])
  else
    if pyJoinSpace args = "" then .ok (st, [.user "Please provide a genre (e.g., /music pop)."])
    else
      match env.musicResp with
      | .apiError => .ok (st, [.user "Could not find music for that genre."])
      | .fail e => .error e
      | .ok [] => .error "IndexError: list index out of range"
      | .ok (track :: _) =>
        .ok (st, [.user ("Top " ++ pyJoinSpace args ++ " track: " ++ track.1 ++ " by " ++ track.2)])

/-- Lines 206-218: the `/fitness` handler (no external call). -/
def fitness (env : Env) (st : BotState) (args : List String) :
    Except String (BotState × List Reply) :=
  if check_channel_member env.member = false then .ok (st, [.user joinPrompt])
  else
    if pyStartsWith (pyLower (pyJoinSpace args)) "log" then
      .ok (st, [.user ("Workout " ++ squote ++
        pyJoinSpace ((pySplitSpace (pyLower (pyJoinSpace args))).drop 1) ++ squote ++ " logged!")])
    else
      .ok (st, [.user "Use /fitness log <workout> to log a workout."])

/-- Lines 230-236: `get_word_of_the_day`; a failed request or a payload
without `"word"` raises, uncaught. -/
def get_word_of_the_day (resp : DictResp) : Except String String :=
  match resp with
  | .ok word => .ok word
  | .fail e => .error e

/-- Lines 221-228: the `/language` handler. -/
def language (env : Env) (st : BotState) (_args : List String) :
    Except String (BotState × List Reply) :=
  if check_channel_member env.member = false then .ok (st, [.user joinPrompt])
  else
    match get_word_of_the_day env.dictResp with
    | .error e => .error e
    | .ok word => .ok (st, [.user ("Word of the Day: " ++ word)])

/-- One inbound chat event: a slash command with its argument tokens, or a
plain text message. -/
inductive Event where
  | command (name : String) (args : List String)
  | text (msg : String)

/-- Lines 249-265: the dispatcher wiring of `main()`.  Each registered
command name is bound to its handler; every non-command text message is
routed to `check_answer` (line 265); a command name with no handler fires
nothing. -/
def dispatch (env : Env) (st : BotState) : Event → Except String (BotState × List Reply)
  | .command "start" args => start env st args
  | .command "confession" args => confession env st args
  | .command "quiz" args => quiz env st args
  | .command "finance" args => finance env st args
  | .command "study" args => study env st args
  | .command "weather" args => weather env st args
  | .command "music" args => music env st args
  | .command "fitness" args => fitness env st args
  | .command "language" args => language env st args
  | .command _ _ => .ok (st, [])
  | .text msg => check_answer env st msg

/-- State component of a handler outcome, when the handler did not raise. -/
def resultState : Except String (BotState × List Reply) → Option BotState
  | .ok r => some r.1
  | .error _ => none

/-- True when the handler returned (replied) rather than raised. -/
def replied : Except String (BotState × List Reply) → Bool
  | .ok _ => true
  | .error _ => false

/-- One abstract ledger mutation, as performed by the success paths of the
finance sub-commands (lines 120 and 128). -/
inductive LedgerOp where
  | logIncome (a : ℚ)
  | logExpense (a : ℚ)

/-- Effect of one ledger mutation on `finance_data`. -/
def applyOp (f : FinanceData) : LedgerOp → FinanceData
  | .logIncome a => { f with income := f.income + a }
  | .logExpense a => { f with expenses := f.expenses + a }

/-- Effect of a sequence of ledger mutations. -/
def applyOps (f : FinanceData) (l : List LedgerOp) : FinanceData :=
  l.foldl applyOp f

/-- The balance derived on line 134. -/
def balance (f : FinanceData) : ℚ := f.income - f.expenses

/-- Signed contribution of one ledger mutation to the balance. -/
def signedAmt : LedgerOp → ℚ
  | .logIncome a => a
  | .logExpense a => -a

/-- Splitting a spaceless character list yields the single piece. -/
lemma splitSpaceChars_no_space (m : List Char) (h : ' ' ∉ m) :
    splitSpaceChars m = [m] := by
  induction m with
  | nil => rfl
  | cons c t ih =>
    have hc : ¬ c = ' ' := fun e => h (by simp [e])
    have ht : ' ' ∉ t := fun x => h (List.mem_cons_of_mem _ x)
    simp [splitSpaceChars, hc, ih ht]

/-- Splitting a spaceless word, a space, and a spaceless tail yields the two
pieces. -/
lemma splitSpaceChars_append (w m : List Char) (hw : ' ' ∉ w) (hm : ' ' ∉ m) :
    splitSpaceChars (w ++ ' ' :: m) = [w, m] := by
  induction w with
  | nil => simp [splitSpaceChars, splitSpaceChars_no_space m hm]
  | cons c t ih =>
    have hc : ¬ c = ' ' := fun e => hw (by simp [e])
    have ht : ' ' ∉ t := fun x => hw (List.mem_cons_of_mem _ x)
    simp [splitSpaceChars, hc, ih ht]

/-- Lowering the joined two-token argument list, for a lowercase keyword. -/
lemma pyLower_join2 (w tok : String) (hw : w.data.map Char.toLower = w.data) :
    pyLower (pyJoinSpace [w, tok]) = String.mk (w.data ++ ' ' :: (pyLower tok).data) := by
  apply congrArg String.mk
  show (joinChars " ".data [w.data, tok.data]).map Char.toLower = _
  rw [show joinChars " ".data [w.data, tok.data] = w.data ++ [' '] ++ tok.data from rfl]
  have h1 : Char.toLower ' ' = ' ' := by decide
  simp [List.map_append, hw, h1, pyLower]

/-- Splitting the lowered two-token command back into its tokens. -/
lemma pySplitSpace_word (w : String) (m : List Char) (hw : ' ' ∉ w.data) (hm : ' ' ∉ m) :
    pySplitSpace (String.mk (w.data ++ ' ' :: m)) = [w, String.mk m] := by
  unfold pySplitSpace
  rw [show (String.mk (w.data ++ ' ' :: m)).data = w.data ++ ' ' :: m from rfl]
  rw [splitSpaceChars_append _ _ hw hm]
  rfl

/-- Rebuilding a string from its characters is the identity. -/
lemma mk_data (s : String) : String.mk s.data = s := by cases s; rfl

/-- Outcome of `/finance income <tok>` behind a passing gate: the parsed
amount is added to the income total, a parse failure is the validation
reply. -/
lemma finance_income_eq (env : Env) (st : BotState) (tok : String)
    (hm : check_channel_member env.member = true)
    (hs : ' ' ∉ (pyLower tok).data) :
    finance env st ["income", tok] =
      match pyFloat? (pyLower tok) with
      | none => .ok (st, [.user "Please provide a valid income amount."])
      | some amount =>
        .ok ({ st with fin := { st.fin with income := st.fin.income + amount } },
          [.user ("Income of " ++ toString amount ++ " added. Total income: " ++
            toString (st.fin.income + amount))]) := by
  have hcmd : pyLower (pyJoinSpace ["income", tok]) =
      String.mk ("income".data ++ ' ' :: (pyLower tok).data) :=
    pyLower_join2 _ _ (by decide)
  have hsp : pySplitSpace (String.mk ("income".data ++ ' ' :: (pyLower tok).data)) =
      ["income", String.mk (pyLower tok).data] :=
    pySplitSpace_word _ _ (by decide) hs
  unfold finance
  rw [hm, if_neg (show ¬ (true = false) by decide), hcmd]
  rw [if_pos (show pyStartsWith (String.mk ("income".data ++ ' ' :: (pyLower tok).data))
        "income" = true from rfl)]
  rw [hsp, mk_data]
  rfl

/-- Outcome of `/finance expense <tok>` behind a passing gate. -/
lemma finance_expense_eq (env : Env) (st : BotState) (tok : String)
    (hm : check_channel_member env.member = true)
    (hs : ' ' ∉ (pyLower tok).data) :
    finance env st ["expense", tok] =
      match pyFloat? (pyLower tok) with
      | none => .ok (st, [.user "Please provide a valid expense amount."])
      | some amount =>
        .ok ({ st with fin := { st.fin with expenses := st.fin.expenses + amount } },
          [.user ("Expense of " ++ toString amount ++ " added. Total expenses: " ++
            toString (st.fin.expenses + amount))]) := by
  have hcmd : pyLower (pyJoinSpace ["expense", tok]) =
      String.mk ("expense".data ++ ' ' :: (pyLower tok).data) :=
    pyLower_join2 _ _ (by decide)
  have hsp : pySplitSpace (String.mk ("expense".data ++ ' ' :: (pyLower tok).data)) =
      ["expense", String.mk (pyLower tok).data] :=
    pySplitSpace_word _ _ (by decide) hs
  unfold finance
  rw [hm, if_neg (show ¬ (true = false) by decide), hcmd]
  rw [show pyStartsWith (String.mk ("expense".data ++ ' ' :: (pyLower tok).data))
        "income" = false from rfl]
  rw [if_neg (show ¬ (false = true) by decide)]
  rw [if_pos (show pyStartsWith (String.mk ("expense".data ++ ' ' :: (pyLower tok).data))
        "expense" = true from rfl)]
  rw [hsp, mk_data]
  rfl

/-- Outcome of `/finance income` with no amount token behind a passing
gate: the missing-index error is caught and turned into the validation
reply. -/
lemma finance_income_missing (env : Env) (st : BotState)
    (hm : check_channel_member env.member = true) :
    finance env st ["income"] = .ok (st, [.user "Please provide a valid income amount."]) := by
  unfold finance
  rw [hm, if_neg (show ¬ (true = false) by decide)]
  rfl

/-- Outcome of `/finance expense` with no amount token behind a passing
gate. -/
lemma finance_expense_missing (env : Env) (st : BotState)
    (hm : check_channel_member env.member = true) :
    finance env st ["expense"] = .ok (st, [.user "Please provide a valid expense amount."]) := by
  unfold finance
  rw [hm, if_neg (show ¬ (true = false) by decide)]
  rfl

/-- A concrete trivia question for concrete runs. -/
def q0 : TriviaQuestion := ⟨"Capital of France?", "Paris", ["London", "Rome", "Berlin"]⟩

/-- A member environment whose content collaborators all fail. -/
def env0 : Env := ⟨.ok "member", .fail "boom", .fail "boom", .fail "boom", .fail "boom", id⟩

/-- A member environment with one well-formed trivia question. -/
def envQuiz : Env := ⟨.ok "member", .ok [q0], .fail "boom", .fail "boom", .fail "boom", id⟩

/-- An environment whose membership lookup raises. -/
def envErr : Env := ⟨.err "network down", .fail "boom", .fail "boom", .fail "boom", .fail "boom", id⟩

/-- The fresh process state: no pending answer, zero ledger, no jobs. -/
def st0 : BotState := ⟨none, ⟨0, 0⟩, []⟩

/-- A state whose session awaits the answer `Paris`. -/
def stParis : BotState := ⟨some "Paris", ⟨0, 0⟩, []⟩

/-- Value of the parser on a string whose pieces are known. -/
lemma pyFloat_of_parts (s : String) (p : FloatParts) (h : pyFloatParts s.data = some p) :
    pyFloat? s = some p.val := by
  show (pyFloatParts s.data).map FloatParts.val = _
  rw [h]; rfl

/-- Value of integer-digit float pieces. -/
lemma val_int (sg : Int) (n : Nat) : FloatParts.val ⟨sg, n, 0, 0, 0⟩ = (sg : ℚ) * (n : ℚ) := by
  simp [FloatParts.val]

lemma pyFloat_tok_neg5 : pyFloat? "-5" = some (-5) := by
  rw [pyFloat_of_parts "-5" ⟨-1, 5, 0, 0, 0⟩ (by decide), val_int]; norm_num

lemma pyFloat_tok_7 : pyFloat? "7" = some 7 := by
  rw [pyFloat_of_parts "7" ⟨1, 7, 0, 0, 0⟩ (by decide), val_int]; norm_num

lemma pyFloat_tok_50 : pyFloat? "50" = some 50 := by
  rw [pyFloat_of_parts "50" ⟨1, 50, 0, 0, 0⟩ (by decide), val_int]; norm_num

lemma pyFloat_tok_25 : pyFloat? "25" = some 25 := by
  rw [pyFloat_of_parts "25" ⟨1, 25, 0, 0, 0⟩ (by decide), val_int]; norm_num

lemma pyFloat_tok_30 : pyFloat? "30" = some 30 := by
  rw [pyFloat_of_parts "30" ⟨1, 30, 0, 0, 0⟩ (by decide), val_int]; norm_num

/-- Every gated handler short-circuits to the join prompt, with the state
untouched, when the gate denies access. -/
lemma gate_denied_short_circuit (env : Env) (st : BotState) (args : List String)
    (hm' : check_channel_member env.member = false) :
    start env st args = .ok (st, [.user joinPrompt]) ∧
    confession env st args = .ok (st, [.user joinPrompt]) ∧
    quiz env st args = .ok (st, [.user joinPrompt]) ∧
    finance env st args = .ok (st, [.user joinPrompt]) ∧
    study env st args = .ok (st, [.user joinPrompt]) ∧
    weather env st args = .ok (st, [.user joinPrompt]) ∧
    music env st args = .ok (st, [.user joinPrompt]) ∧
    fitness env st args = .ok (st, [.user joinPrompt]) ∧
    language env st args = .ok (st, [.user joinPrompt]) := by
  refine ⟨?_, ?_, ?_, ?_, ?_, ?_, ?_, ?_, ?_⟩ <;>
    simp [start, confession, quiz, finance, study, weather, music, fitness, language, hm']

/-- The finance handler replies on every path: both exception sources in
its body (`float` and the index access) sit inside `try`/`except`. -/
lemma finance_total (env : Env) (st : BotState) (args : List String) :
    replied (finance env st args) = true := by
  unfold finance
  repeat' split
  all_goals rfl

/-- The fitness handler replies on every path. -/
lemma fitness_total (env : Env) (st : BotState) (args : List String) :
    replied (fitness env st args) = true := by
  unfold fitness
  repeat' split
  all_goals rfl

/-- The start handler replies on every path. -/
lemma start_total (env : Env) (st : BotState) (args : List String) :
    replied (start env st args) = true := by
  unfold start
  split
  all_goals rfl

/-- The confession handler replies on every path. -/
lemma confession_total (env : Env) (st : BotState) (args : List String) :
    replied (confession env st args) = true := by
  unfold confession
  repeat' split
  all_goals rfl

/-- The study handler replies on every path (up to entering its loop). -/
lemma study_total (env : Env) (st : BotState) (args : List String) :
    replied (study env st args) = true := by
  unfold study
  split
  all_goals rfl

/-- Balance after a sequence of ledger mutations: the starting balance plus
the signed amounts. -/
lemma balance_applyOps (l : List LedgerOp) :
    ∀ f : FinanceData, balance (applyOps f l) = balance f + (l.map signedAmt).sum := by
  induction l with
  | nil => intro f; simp [applyOps, balance]
  | cons op t ih =>
    intro f
    have : applyOps f (op :: t) = applyOps (applyOp f op) t := rfl
    rw [this, ih]
    cases op <;> simp [applyOp, balance, signedAmt] <;> ring

/-- C1: when the quiz handler has stored a correct answer in the session,
the quiz run itself stores exactly the payload's correct answer, and the
next free-text message is answered with "Correct!" precisely when it
equals that answer up to letter case, and otherwise with the fixed
incorrect reply containing the stored true answer. -/
theorem quiz_stores_answer_and_checks_case (env env2 : Env) (st st2 : BotState)
    (args : List String) (q : TriviaQuestion) (rest : List TriviaQuestion) (msg : String)
    (hm : check_channel_member env.member = true)
    (ht : env.trivia = .ok (q :: rest)) :
    quiz env st args =
      .ok ({ st with slot := some q.correct_answer },
        [.user ("Question: " ++ q.question ++ "\nOptions: " ++
          pyJoin ", " (env.shuffle (q.incorrect_answers ++ [q.correct_answer])))]) ∧
    (st2.slot = some q.correct_answer →
      check_answer env2 st2 msg =
        .ok (st2, [.user (if pyLower msg = pyLower q.correct_answer then "Correct!"
          else "Incorrect! The correct answer was: " ++ q.correct_answer)])) := by
  constructor
  · unfold quiz
    rw [hm, if_neg (show ¬ (true = false) by decide), ht]
  · intro hs2
    unfold check_answer
    rw [hs2]
    show (if pyLower msg = pyLower q.correct_answer then
        Except.ok (st2, [Reply.user "Correct!"])
      else
        Except.ok (st2, [Reply.user ("Incorrect! The correct answer was: " ++ q.correct_answer)]))
      = _
    split_ifs <;> rfl

/-- Witness for C1 at a concrete question: the quiz stores "Paris", the
case-different reply "PARIS" is correct, the reply "Rome" is incorrect. -/
theorem quiz_stores_answer_and_checks_case_w :
    check_channel_member envQuiz.member = true ∧ envQuiz.trivia = .ok [q0] ∧
    quiz envQuiz st0 [] =
      .ok (stParis, [.user "Question: Capital of France?\nOptions: London, Rome, Berlin, Paris"]) ∧
    check_answer env0 stParis "PARIS" = .ok (stParis, [.user "Correct!"]) ∧
    check_answer env0 stParis "Rome" =
      .ok (stParis, [.user "Incorrect! The correct answer was: Paris"]) := by
  have H := quiz_stores_answer_and_checks_case envQuiz env0 st0 stParis [] q0 [] "PARIS"
    (by decide) rfl
  have H2 := quiz_stores_answer_and_checks_case envQuiz env0 st0 stParis [] q0 [] "Rome"
    (by decide) rfl
  refine ⟨by decide, rfl, ?_, ?_, ?_⟩
  · rw [H.1]; rfl
  · rw [H.2 rfl, if_pos (by decide)]
  · rw [H2.2 rfl, if_neg (by decide)]; rfl

/-- C2: with no pending quiz answer in the session, the free-text handler
does not reply gracefully: `context.user_data.get("correct_answer")` is
`None` and `correct_answer.lower()` raises `AttributeError`, uncaught
(lines 101-103).  The claim names the spec's required behavior; the code
crashes on this path. -/
theorem check_answer_without_pending_raises :
    st0.slot = none ∧
    check_answer env0 st0 "hello" =
      .error "AttributeError: NoneType object has no attribute lower" :=
  ⟨rfl, rfl⟩

/-- Counterexample to C3: after the handler evaluates "paris" against the
stored answer "Paris", the slot still holds "Paris"; it is not cleared, so
the session does not return to the idle state. -/
theorem check_answer_slot_not_cleared_cex :
    resultState (check_answer env0 stParis "paris") = some stParis ∧
    stParis.slot = some "Paris" ∧ stParis.slot ≠ none := by
  refine ⟨rfl, rfl, by decide⟩

/-- C3 as amended: the Answer handler never writes the slot; whenever it
replies, the whole state — the pending-answer slot included — is exactly
the state it was given, so the same stored answer is matched again by
every later free-text message. -/
theorem check_answer_preserves_slot (env : Env) (st : BotState) (msg : String)
    (r : BotState × List Reply) (h : check_answer env st msg = .ok r) :
    r.1 = st := by
  unfold check_answer at h
  rcases hs : st.slot with _ | ans
  · rw [hs] at h; cases h
  · rw [hs] at h
    replace h : (if pyLower msg = pyLower ans then Except.ok (st, [Reply.user "Correct!"])
        else Except.ok (st, [Reply.user ("Incorrect! The correct answer was: " ++ ans)]))
        = Except.ok r := h
    split_ifs at h <;> (cases h; rfl)

/-- Witness for the amended C3 at a concrete non-matching message. -/
theorem check_answer_preserves_slot_w :
    check_answer env0 stParis "x" =
      .ok (stParis, [.user "Incorrect! The correct answer was: Paris"]) ∧
    (stParis, [Reply.user "Incorrect! The correct answer was: Paris"]).1 = stParis :=
  ⟨by rw [show check_answer env0 stParis "x" = check_answer env0 stParis "x" from rfl]; rfl,
   check_answer_preserves_slot env0 stParis "x" _ (by rfl)⟩

/-- Counterexample to C4: the finance handler accepts the amount token
"-5" (Python float parses signed numbers), and from the zero ledger the
income total becomes -5, which is negative and below its previous value. -/
theorem finance_accepts_negative_amount_cex :
    (resultState (finance env0 st0 ["income", "-5"])).map (fun s => s.fin.income)
      = some (-5) ∧
    ¬ (0 : ℚ) ≤ -5 := by
  constructor
  · have h := finance_income_eq env0 st0 "-5" (by decide) (by decide)
    rw [show pyLower "-5" = "-5" from by decide, pyFloat_tok_neg5] at h
    rw [h]
    show some (st0.fin.income + -5) = some (-5)
    have : st0.fin.income = 0 := rfl
    rw [this]; norm_num
  · norm_num

/-- C4 as amended: the ledger accepts any amount token Python float parses,
negative ones included; each accepted income (expense) operation adds the
parsed amount to its total, so the totals are non-negative and
non-decreasing exactly when every accepted amount is non-negative, and a
negative amount strictly decreases the total. -/
theorem finance_adds_parsed_amount (env : Env) (st : BotState) (tok : String) (a : ℚ)
    (hm : check_channel_member env.member = true)
    (hs : ' ' ∉ (pyLower tok).data)
    (hp : pyFloat? (pyLower tok) = some a) :
    resultState (finance env st ["income", tok]) =
      some { st with fin := { st.fin with income := st.fin.income + a } } ∧
    resultState (finance env st ["expense", tok]) =
      some { st with fin := { st.fin with expenses := st.fin.expenses + a } } ∧
    (0 ≤ a → st.fin.income ≤ st.fin.income + a ∧ st.fin.expenses ≤ st.fin.expenses + a) ∧
    (a < 0 → st.fin.income + a < st.fin.income) := by
  refine ⟨?_, ?_, fun ha => ⟨by linarith, by linarith⟩, fun ha => by linarith⟩
  · rw [finance_income_eq env st tok hm hs, hp]
    rfl
  · rw [finance_expense_eq env st tok hm hs, hp]
    rfl

/-- Witness for the amended C4 at the token "7". -/
theorem finance_adds_parsed_amount_w :
    check_channel_member env0.member = true ∧ (' ' ∉ (pyLower "7").data) ∧
    pyFloat? (pyLower "7") = some 7 ∧
    resultState (finance env0 st0 ["income", "7"]) =
      some { st0 with fin := { st0.fin with income := st0.fin.income + 7 } } := by
  have hp : pyFloat? (pyLower "7") = some 7 := by
    rw [show pyLower "7" = "7" from by decide]; exact pyFloat_tok_7
  exact ⟨by decide, by decide, hp,
    (finance_adds_parsed_amount env0 st0 "7" 7 (by decide) (by decide) hp).1⟩

/-- C5: running the three finance operations of the spec's example through
the handler from the zero ledger yields balance 45, and at the ledger
level any permutation of the three mutations yields the same balance. -/
theorem ledger_balance_commutative :
    ((resultState (finance env0 st0 ["income", "50"])).bind fun s1 =>
      (resultState (finance env0 s1 ["income", "25"])).bind fun s2 =>
        (resultState (finance env0 s2 ["expense", "30"])).map fun s3 => balance s3.fin)
      = some 45 ∧
    (∀ l : List LedgerOp,
      l.Perm [.logIncome 50, .logIncome 25, .logExpense 30] →
      balance (applyOps ⟨0, 0⟩ l) = 45) := by
  constructor
  · have e1 := finance_income_eq env0 st0 "50" (by decide) (by decide)
    rw [show pyLower "50" = "50" from by decide, pyFloat_tok_50] at e1
    rw [e1]
    show ((resultState (finance env0 _ ["income", "25"])).bind fun s2 =>
      (resultState (finance env0 s2 ["expense", "30"])).map fun s3 => balance s3.fin) = some 45
    have e2 := finance_income_eq env0
      { st0 with fin := { st0.fin with income := st0.fin.income + 50 } } "25"
      (by decide) (by decide)
    rw [show pyLower "25" = "25" from by decide, pyFloat_tok_25] at e2
    rw [e2]
    show ((resultState (finance env0 _ ["expense", "30"])).map fun s3 => balance s3.fin)
      = some 45
    have e3 := finance_expense_eq env0
      { st0 with fin := { st0.fin with income := st0.fin.income + 50 + 25 } } "30"
      (by decide) (by decide)
    rw [show pyLower "30" = "30" from by decide, pyFloat_tok_30] at e3
    rw [e3]
    show some (balance ⟨st0.fin.income + 50 + 25, st0.fin.expenses + 30⟩) = some 45
    have h0 : st0.fin.income = 0 := rfl
    have h1 : st0.fin.expenses = 0 := rfl
    rw [balance, h0, h1]
    norm_num
  · intro l hperm
    rw [balance_applyOps l ⟨0, 0⟩, (hperm.map signedAmt).sum_eq]
    show (0 : ℚ) - 0 + (50 + (25 + (-30 + 0))) = 45
    norm_num

/-- Witness for C5 at a rotated operation order. -/
theorem ledger_balance_commutative_w :
    List.Perm [LedgerOp.logIncome 25, LedgerOp.logIncome 50, LedgerOp.logExpense 30]
      [LedgerOp.logIncome 50, LedgerOp.logIncome 25, LedgerOp.logExpense 30] ∧
    balance (applyOps ⟨0, 0⟩
      [LedgerOp.logIncome 25, LedgerOp.logIncome 50, LedgerOp.logExpense 30]) = 45 := by
  have hp : List.Perm [LedgerOp.logIncome 25, LedgerOp.logIncome 50, LedgerOp.logExpense 30]
      [LedgerOp.logIncome 50, LedgerOp.logIncome 25, LedgerOp.logExpense 30] :=
    List.Perm.swap (LedgerOp.logIncome 50) (LedgerOp.logIncome 25) [LedgerOp.logExpense 30]
  exact ⟨hp, ledger_balance_commutative.2 _ hp⟩

/-- C6: behind a passing gate, a malformed amount token — one Python float
rejects — and a missing amount token both leave the handler replying the
validation message with the state, and so both totals, unchanged, raising
nothing. -/
theorem finance_invalid_amount_keeps_totals (env : Env) (st : BotState) (tok : String)
    (hm : check_channel_member env.member = true)
    (hs : ' ' ∉ (pyLower tok).data)
    (hp : pyFloat? (pyLower tok) = none) :
    finance env st ["income", tok] = .ok (st, [.user "Please provide a valid income amount."]) ∧
    finance env st ["expense", tok] = .ok (st, [.user "Please provide a valid expense amount."]) ∧
    finance env st ["income"] = .ok (st, [.user "Please provide a valid income amount."]) ∧
    finance env st ["expense"] = .ok (st, [.user "Please provide a valid expense amount."]) := by
  refine ⟨?_, ?_, finance_income_missing env st hm, finance_expense_missing env st hm⟩
  · rw [finance_income_eq env st tok hm hs, hp]
  · rw [finance_expense_eq env st tok hm hs, hp]

/-- Witness for C6 at the malformed token "abc" and the zero ledger. -/
theorem finance_invalid_amount_keeps_totals_w :
    check_channel_member env0.member = true ∧ (' ' ∉ (pyLower "abc").data) ∧
    pyFloat? (pyLower "abc") = none ∧
    finance env0 st0 ["income", "abc"] =
      .ok (st0, [.user "Please provide a valid income amount."]) ∧
    finance env0 st0 ["income"] =
      .ok (st0, [.user "Please provide a valid income amount."]) := by
  have H := finance_invalid_amount_keeps_totals env0 st0 "abc" (by decide) (by decide) (by decide)
  exact ⟨by decide, by decide, by decide, H.1, H.2.2.1⟩

/-- C7: the gate is fail-closed — an exception in the membership lookup
and any non-member status both make `check_channel_member` return false
without propagating anything — and under a denied gate every gated
handler replies exactly the join prompt, leaving the state untouched. -/
theorem membership_gate_fail_closed :
    (∀ e, check_channel_member (.err e) = false) ∧
    (∀ s, s ≠ "member" → s ≠ "administrator" → s ≠ "creator" →
      check_channel_member (.ok s) = false) ∧
    (∀ (env : Env) (st : BotState) (args : List String),
      check_channel_member env.member = false →
      start env st args = .ok (st, [.user joinPrompt]) ∧
      confession env st args = .ok (st, [.user joinPrompt]) ∧
      quiz env st args = .ok (st, [.user joinPrompt]) ∧
      finance env st args = .ok (st, [.user joinPrompt]) ∧
      study env st args = .ok (st, [.user joinPrompt]) ∧
      weather env st args = .ok (st, [.user joinPrompt]) ∧
      music env st args = .ok (st, [.user joinPrompt]) ∧
      fitness env st args = .ok (st, [.user joinPrompt]) ∧
      language env st args = .ok (st, [.user joinPrompt])) := by
  refine ⟨fun e => rfl, ?_, fun env st args hm' => gate_denied_short_circuit env st args hm'⟩
  intro s h1 h2 h3
  show (s == "member" || s == "administrator" || s == "creator") = false
  simp [h1, h2, h3]

/-- Witness for C7: a raised lookup and the status "left" both deny, and
the denied finance handler only prompts, from the zero ledger. -/
theorem membership_gate_fail_closed_w :
    check_channel_member (.err "network down") = false ∧
    check_channel_member (.ok "left") = false ∧
    check_channel_member envErr.member = false ∧
    finance envErr st0 ["income", "5"] = .ok (st0, [.user joinPrompt]) := by
  refine ⟨membership_gate_fail_closed.1 "network down",
    membership_gate_fail_closed.2.1 "left" (by decide) (by decide) (by decide), rfl, ?_⟩
  exact (membership_gate_fail_closed.2.2 envErr st0 ["income", "5"] rfl).2.2.2.1

/-- Counterexample to C8: with a member sender and a failed trivia request
the quiz handler propagates the exception instead of converting it into a
reply. -/
theorem quiz_fault_escapes_cex :
    check_channel_member env0.member = true ∧
    quiz env0 st0 [] = .error "boom" := by
  exact ⟨by decide, rfl⟩

/-- C8 as amended: handlers are not uniform fault boundaries.  The quiz,
weather, music and language handlers propagate collaborator failures and
malformed payloads uncaught (so the fault reaches the dispatcher's error
logger), and the Answer handler raises on a missing pending answer; only
the membership lookup and the finance amount parsing catch exceptions,
and the handlers with no other fallible step (start, confession, finance,
fitness, study) always reply. -/
theorem handler_fault_propagation (env : Env) (st : BotState) (args : List String)
    (msg e : String) (hm : check_channel_member env.member = true) :
    (env.trivia = .fail e → quiz env st args = .error e) ∧
    (env.weatherResp = .fail e → pyJoinSpace args ≠ "" → weather env st args = .error e) ∧
    (env.musicResp = .fail e → pyJoinSpace args ≠ "" → music env st args = .error e) ∧
    (env.dictResp = .fail e → language env st args = .error e) ∧
    (st.slot = none → check_answer env st msg =
      .error "AttributeError: NoneType object has no attribute lower") ∧
    replied (start env st args) = true ∧
    replied (confession env st args) = true ∧
    replied (finance env st args) = true ∧
    replied (fitness env st args) = true ∧
    replied (study env st args) = true := by
  refine ⟨?_, ?_, ?_, ?_, ?_, start_total env st args, confession_total env st args,
    finance_total env st args, fitness_total env st args, study_total env st args⟩
  · intro ht
    unfold quiz
    rw [hm, if_neg (show ¬ (true = false) by decide), ht]
  · intro hw hc
    unfold weather
    rw [hm, if_neg (show ¬ (true = false) by decide), if_neg hc, hw]
  · intro hmr hc
    unfold music
    rw [hm, if_neg (show ¬ (true = false) by decide), if_neg hc, hmr]
  · intro hd
    unfold language
    rw [hm, if_neg (show ¬ (true = false) by decide), hd]
    rfl
  · intro hslot
    unfold check_answer
    rw [hslot]

/-- Witness for the amended C8: concrete escapes for quiz and weather and
a concrete finance reply, in a member environment whose collaborators
fail. -/
theorem handler_fault_propagation_w :
    check_channel_member env0.member = true ∧
    env0.trivia = .fail "boom" ∧ env0.weatherResp = .fail "boom" ∧
    pyJoinSpace ["london"] ≠ "" ∧ st0.slot = none ∧
    quiz env0 st0 [] = .error "boom" ∧
    weather env0 st0 ["london"] = .error "boom" ∧
    check_answer env0 st0 "hi" =
      .error "AttributeError: NoneType object has no attribute lower" ∧
    replied (finance env0 st0 []) = true := by
  have H := handler_fault_propagation env0 st0 [] "hi" "boom" (by decide)
  have H2 := handler_fault_propagation env0 st0 ["london"] "hi" "boom" (by decide)
  exact ⟨by decide, rfl, rfl, by decide, rfl, H.1 rfl, H2.2.1 rfl (by decide),
    H.2.2.2.2.1 rfl, H.2.2.2.2.2.2.2.1⟩

/-- C9: every gated study invocation appends one fresh 25-minute job and
one fresh 5-minute job to the schedule, deduplicating nothing, so two
invocations leave two independent pairs registered. -/
theorem study_registers_task_pairs (env : Env) (st : BotState) (args args2 : List String)
    (hm : check_channel_member env.member = true) :
    study env st args =
      .ok ({ st with sched := st.sched ++ [work_over_task, break_over_task] },
        [.user "Pomodoro timer started! Work for 25 minutes, then take a 5-minute break."]) ∧
    (resultState (study env st args)).bind (fun s1 => resultState (study env s1 args2)) =
      some { st with sched :=
        st.sched ++ [work_over_task, break_over_task, work_over_task, break_over_task] } := by
  have h1 : study env st args =
      .ok ({ st with sched := st.sched ++ [work_over_task, break_over_task] },
        [.user "Pomodoro timer started! Work for 25 minutes, then take a 5-minute break."]) := by
    unfold study
    rw [hm, if_neg (show ¬ (true = false) by decide)]
  have h2 : study env { st with sched := st.sched ++ [work_over_task, break_over_task] } args2 =
      .ok ({ st with sched :=
          (st.sched ++ [work_over_task, break_over_task]) ++ [work_over_task, break_over_task] },
        [.user "Pomodoro timer started! Work for 25 minutes, then take a 5-minute break."]) := by
    unfold study
    rw [hm, if_neg (show ¬ (true = false) by decide)]
  refine ⟨h1, ?_⟩
  rw [h1]
  show (resultState (study env { st with sched := st.sched ++ [work_over_task, break_over_task] }
    args2)) = _
  rw [h2]
  show some _ = some _
  simp [List.append_assoc]

/-- Witness for C9: two study invocations from the empty schedule. -/
theorem study_registers_task_pairs_w :
    check_channel_member env0.member = true ∧
    (resultState (study env0 st0 [])).bind (fun s1 => resultState (study env0 s1 [])) =
      some { st0 with sched :=
        [work_over_task, break_over_task, work_over_task, break_over_task] } := by
  have H := (study_registers_task_pairs env0 st0 [] [] (by decide)).2
  refine ⟨by decide, ?_⟩
  rw [H]
  rfl

/-- C10: the free-text Answer handler is not behind the membership gate —
its outcome is the same for every membership result, and the dispatcher
evaluates and answers a free-text message even for a non-member — while
every dispatched slash command short-circuits to the join prompt when the
gate denies. -/
theorem free_text_bypasses_membership_gate :
    (∀ (env env2 : Env) (st : BotState) (msg : String),
      check_answer env st msg = check_answer env2 st msg) ∧
    (∀ (env : Env) (st : BotState) (msg ans : String), st.slot = some ans →
      dispatch env st (.text msg) =
        .ok (st, [.user (if pyLower msg = pyLower ans then "Correct!"
          else "Incorrect! The correct answer was: " ++ ans)])) ∧
    (∀ (env : Env) (st : BotState) (args : List String) (name : String),
      check_channel_member env.member = false →
      name ∈ ["start", "confession", "quiz", "finance", "study", "weather", "music",
        "fitness", "language"] →
      dispatch env st (.command name args) = .ok (st, [.user joinPrompt])) := by
  refine ⟨fun env env2 st msg => rfl, ?_, ?_⟩
  · intro env st msg ans hslot
    show check_answer env st msg = _
    unfold check_answer
    rw [hslot]
    show (if pyLower msg = pyLower ans then
        Except.ok (st, [Reply.user "Correct!"])
      else
        Except.ok (st, [Reply.user ("Incorrect! The correct answer was: " ++ ans)])) = _
    split_ifs <;> rfl
  · intro env st args name hm' hmem
    have H := gate_denied_short_circuit env st args hm'
    simp only [List.mem_cons, List.mem_singleton, List.not_mem_nil, or_false] at hmem
    rcases hmem with rfl | rfl | rfl | rfl | rfl | rfl | rfl | rfl | rfl
    · exact H.1
    · exact H.2.1
    · exact H.2.2.1
    · exact H.2.2.2.1
    · exact H.2.2.2.2.1
    · exact H.2.2.2.2.2.1
    · exact H.2.2.2.2.2.2.1
    · exact H.2.2.2.2.2.2.2.1
    · exact H.2.2.2.2.2.2.2.2

/-- Witness for C10: with the membership lookup raising, a free-text
message is still answered, while the dispatched quiz command is gated. -/
theorem free_text_bypasses_membership_gate_w :
    stParis.slot = some "Paris" ∧
    check_channel_member envErr.member = false ∧
    dispatch envErr stParis (.text "paris") = .ok (stParis, [.user "Correct!"]) ∧
    dispatch envErr stParis (.command "quiz" []) = .ok (stParis, [.user joinPrompt]) := by
  refine ⟨rfl, rfl, ?_, ?_⟩
  · rw [free_text_bypasses_membership_gate.2.1 envErr stParis "paris" "Paris" rfl,
      if_pos (by decide)]
  · exact free_text_bypasses_membership_gate.2.2 envErr stParis [] "quiz" rfl (by decide)
